import Mathlib

/-!
Verification of the ride-lifecycle synchronization layer of the Cash_Ride client.

The development shallowly embeds the relevant JavaScript modules:
  - `frontend/src/store/rideStore.js` (zustand ride store),
  - `frontend/src/store/locationStore.js` (zustand location store),
  - the `LocationPicker` component (debounced place search),
  - the `SocketService` wrapper over the socket.io client,
  - the `useGeolocation` hook,
  - the booking / tracking / driver page handlers
    (`handleConfirmBooking`, `handleCancelRide`, `handleCompleteRide`).

JS float64 latitude / longitude / fare values are represented by `ℚ`: the code only
stores and forwards these values, it never computes with them. JS closures passed as
event handlers are represented by `Nat` identifiers, since the emitter compares them
by identity only.
-/

namespace CashRide

/-- Ride lifecycle statuses, from `utils/constants.js` `RIDE_STATUS`
(`requested`, `accepted`, `in_progress`, `completed`, `cancelled`). -/
inductive RideStatus
  | requested
  | accepted
  | inProgress
  | completed
  | cancelled
  deriving DecidableEq, Repr

/-- Position of a status in the normal progression order of the spec, section 3:
Requested < Accepted < InProgress < Completed. -/
def statusRank : RideStatus → Nat
  | .requested => 0
  | .accepted => 1
  | .inProgress => 2
  | .completed => 3
  | .cancelled => 4

/-- A latitude / longitude pair as produced by the geolocation watcher and consumed by
the map components. -/
structure Coordinate where
  lat : ℚ
  lng : ℚ
  deriving DecidableEq, Repr

/-- An address resolved to coordinates, as produced by `LocationPicker`
(`handleSelectLocation`) and stored in the location store. -/
structure ResolvedLocation where
  address : String
  lat : ℚ
  lng : ℚ
  deriving DecidableEq, Repr

/-- A ride object in the shape the REST backend returns and the pages consume
(`pickup_latitude`, `destination_address`, `fare_amount`, `driver_id`, ...). -/
structure Ride where
  id : String
  status : RideStatus
  pickupLatitude : ℚ
  pickupLongitude : ℚ
  pickupAddress : String
  destinationLatitude : ℚ
  destinationLongitude : ℚ
  destinationAddress : String
  fareAmount : ℚ
  driverId : Option String
  passengerId : String
  deriving DecidableEq, Repr

/-- State of the zustand ride store (`store/rideStore.js`): `currentRide`,
`rideHistory`, `nearbyDrivers`. Nearby drivers are kept as opaque identifiers. -/
structure RideStoreState where
  currentRide : Option Ride
  rideHistory : List Ride
  nearbyDrivers : List String
  deriving DecidableEq, Repr

/-- `setCurrentRide` (rideStore.js line 8): replaces `currentRide` with the given ride. -/
def setCurrentRide (ride : Ride) (s : RideStoreState) : RideStoreState :=
  { s with currentRide := some ride }

/-- `updateRideStatus` (rideStore.js lines 10-15): when a current ride exists, spreads it
and overwrites its `status` field with the argument; when `currentRide` is null it stays
null. The zustand `set` merges only the `currentRide` key, so the other store keys are
untouched. There is no check of the argument against the previous status. -/
def updateRideStatus (status : RideStatus) (s : RideStoreState) : RideStoreState :=
  { s with
    currentRide :=
      match s.currentRide with
      | some r => some { r with status := status }
      | none => none }

/-- `setNearbyDrivers` (rideStore.js line 17). -/
def setNearbyDrivers (drivers : List String) (s : RideStoreState) : RideStoreState :=
  { s with nearbyDrivers := drivers }

/-- `addToHistory` (rideStore.js lines 19-22): prepends the ride to the history. -/
def addToHistory (ride : Ride) (s : RideStoreState) : RideStoreState :=
  { s with rideHistory := ride :: s.rideHistory }

/-- `clearCurrentRide` (rideStore.js line 24): resets `currentRide` to null. -/
def clearCurrentRide (s : RideStoreState) : RideStoreState :=
  { s with currentRide := none }

/-- A concrete ride used in counterexamples and witnesses. -/
def sampleRide (status : RideStatus) : Ride :=
  { id := "42"
    status := status
    pickupLatitude := 40
    pickupLongitude := -74
    pickupAddress := "A St"
    destinationLatitude := 41
    destinationLongitude := -73
    destinationAddress := "B Ave"
    fareAmount := 25
    driverId := some "d7"
    passengerId := "p1" }

/-- A store holding the sample ride in status InProgress. -/
def storeInProgress : RideStoreState :=
  { currentRide := some (sampleRide RideStatus.inProgress)
    rideHistory := []
    nearbyDrivers := [] }

/-- A store holding the sample ride in status Completed. -/
def storeCompleted : RideStoreState :=
  { currentRide := some (sampleRide RideStatus.completed)
    rideHistory := []
    nearbyDrivers := [] }

/-- The empty ride store (initial zustand state). -/
def emptyStore : RideStoreState :=
  { currentRide := none, rideHistory := [], nearbyDrivers := [] }

/-- Effects the cancel handler of the `RideTracking` page can perform, in order. The
ride store is not among them: the handler contains no store action at all. -/
inductive CancelEffect
  | restCancelCall (rideId : String)
  | navigateHome
  | logCancelError
  deriving DecidableEq, Repr

/-- `handleCancelRide` (`RideTracking`, part_011 lines 52-59), as the trace of its
effects: the try block first awaits `rideService.cancelRide(rideId)` (the POST to the
cancel endpoint is issued unconditionally — the handler reads neither the ride status
nor the store), then on REST success calls `navigate` to the home route; the catch block
only logs. `restOk` is whether the REST call succeeded. -/
def handleCancelRideEffects (rideId : String) (restOk : Bool) : List CancelEffect :=
  if restOk then [CancelEffect.restCancelCall rideId, CancelEffect.navigateHome]
  else [CancelEffect.restCancelCall rideId, CancelEffect.logCancelError]

/-- Modelled from the spec: the `debounce` helper that `LocationPicker` imports from
`utils/helpers` is not under src/ (only its caller is). Spec section 4.2: trailing-edge
debounce — each call restarts a fixed delay window and only the last call within the
window reaches the wrapped function. A call at time `t` schedules the wrapped function
at `t + delay`; a later call arriving before that moment clears the pending timer.
Given the timed call sequence (times in milliseconds, nondecreasing), this returns the
timed invocations of the wrapped function that actually fire. -/
def debounceFires (delay : Nat) : List (Nat × String) → List (Nat × String)
  | [] => []
  | [(t, a)] => [(t + delay, a)]
  | (t, a) :: (u, b) :: rest =>
    if t + delay ≤ u then (t + delay, a) :: debounceFires delay ((u, b) :: rest)
    else debounceFires delay ((u, b) :: rest)

/-- Provider requests issued by one invocation of the debounced `searchLocations` body
(part_002 lines 11-34): an empty query short-circuits to an empty suggestion list
without contacting the provider; otherwise one `getPlacePredictions` request is issued
with the query as input. -/
def searchLocationsRequests (query : String) : List String :=
  if query = "" then [] else [query]

/-- The requests that reach the external place-search provider for a timed sequence of
`search` calls: the debounced invocations, each contributing its provider requests. -/
def providerRequests (delay : Nat) (calls : List (Nat × String)) : List String :=
  (debounceFires delay calls).flatMap (fun p => searchLocationsRequests p.2)

/-- Every call after the first arrives strictly before the previous pending timer would
fire — the whole sequence sits inside one debounce window. -/
def withinWindow (delay : Nat) : List (Nat × String) → Bool
  | (t, _) :: (u, b) :: rest => decide (u < t + delay) && withinWindow delay ((u, b) :: rest)
  | _ => true

/-- Component state of `LocationPicker` that the provider callback touches:
the displayed suggestions and the loading flag. Predictions are kept as opaque strings. -/
structure PickerState where
  suggestions : List String
  loading : Bool
  deriving DecidableEq, Repr

/-- A place-search provider response: the query it answers, the predictions returned,
and whether the status was `PlacesServiceStatus.OK`. -/
structure ProviderResponse where
  query : String
  predictions : List String
  ok : Bool
  deriving DecidableEq, Repr

/-- The response callback passed to `getPlacePredictions` (part_002 lines 23-28): when
the status is OK it sets the suggestions to the predictions of THIS response; it always
clears the loading flag. The callback carries no request sequence number and performs no
staleness check. -/
def applyResponse (s : PickerState) (r : ProviderResponse) : PickerState :=
  if r.ok then { suggestions := r.predictions, loading := false }
  else { s with loading := false }

/-- Provider responses are applied in arrival order, each through the callback above. -/
def applyResponses (s : PickerState) (rs : List ProviderResponse) : PickerState :=
  rs.foldl applyResponse s

/-- A fast provider response answering the query "ab". -/
def fastAbResponse : ProviderResponse :=
  { query := "ab", predictions := ["ab result"], ok := true }

/-- A slow provider response answering the earlier query "a", arriving late. -/
def slowAResponse : ProviderResponse :=
  { query := "a", predictions := ["a result"], ok := true }

/-- One socket.io client connection as created by `io(url, { auth })` (part_013 lines
8-13). Listener registration follows the EventEmitter semantics of the socket.io client
(external collaborator): `socket.on(event, cb)` appends a listener for the event,
`socket.off(event)` removes all listeners of the event. -/
structure Socket where
  connId : Nat
  token : String
  listeners : List (String × Nat)
  deriving DecidableEq, Repr

/-- `socket.on(event, cb)`: appends the listener (EventEmitter accumulation). -/
def socketOn (event : String) (h : Nat) (s : Socket) : Socket :=
  { s with listeners := s.listeners ++ [(event, h)] }

/-- `socket.off(event)`: removes every listener registered for the event. -/
def socketOff (event : String) (s : Socket) : Socket :=
  { s with listeners := s.listeners.filter (fun q => q.1 != event) }

/-- Process-level realtime state: the singleton `SocketService` reference (`this.socket`)
together with the identifiers of every connection opened by `io()` and not yet
disconnected, and a counter supplying fresh connection identifiers. -/
structure RealtimeProcess where
  socketRef : Option Socket
  liveConnIds : List Nat
  nextConnId : Nat
  deriving DecidableEq, Repr

/-- `SocketService.connect(token)` (part_013 lines 8-24): creates a new `io()` connection
authenticated with the token and overwrites `this.socket` with it. The previously
referenced connection, if any, is NOT disconnected — it stays live, merely unreferenced. -/
def connect (token : String) (p : RealtimeProcess) : RealtimeProcess :=
  { socketRef := some { connId := p.nextConnId, token := token, listeners := [] }
    liveConnIds := p.liveConnIds ++ [p.nextConnId]
    nextConnId := p.nextConnId + 1 }

/-- `SocketService.disconnect()` (lines 26-31): when a socket is referenced, disconnects
that connection and clears the reference; no-op otherwise. -/
def disconnect (p : RealtimeProcess) : RealtimeProcess :=
  match p.socketRef with
  | some s =>
    { socketRef := none
      liveConnIds := p.liveConnIds.filter (fun i => i != s.connId)
      nextConnId := p.nextConnId }
  | none => p

/-- `SocketService.on(event, callback)` (lines 39-43): delegates to `socket.on` on the
referenced socket when one exists; no-op otherwise. -/
def serviceOn (event : String) (h : Nat) (p : RealtimeProcess) : RealtimeProcess :=
  match p.socketRef with
  | some s => { p with socketRef := some (socketOn event h s) }
  | none => p

/-- `SocketService.off(event)` (lines 45-49): delegates to `socket.off` on the referenced
socket when one exists; no-op otherwise. -/
def serviceOff (event : String) (p : RealtimeProcess) : RealtimeProcess :=
  match p.socketRef with
  | some s => { p with socketRef := some (socketOff event s) }
  | none => p

/-- The handlers currently registered on the referenced socket for a topic, in
registration order. -/
def handlersFor (topic : String) (p : RealtimeProcess) : List Nat :=
  match p.socketRef with
  | some s => (s.listeners.filter (fun q => q.1 == topic)).map (fun q => q.2)
  | none => []

/-- The fresh realtime process: no reference, no live connection. -/
def freshProcess : RealtimeProcess :=
  { socketRef := none, liveConnIds := [], nextConnId := 0 }

/-- Topic of ride status updates for a ride id (part_011 line 26). -/
def rideTopic (rideId : String) : String :=
  "ride_" ++ rideId ++ "_update"

/-- Topic of driver location updates for a driver id (part_011 line 30). -/
def driverTopic (driverId : String) : String :=
  "driver_" ++ driverId ++ "_location"

/-- The session state the tracking and driver flows act on: the realtime process, the
ride store, and the current route. -/
structure SessionState where
  proc : RealtimeProcess
  store : RideStoreState
  route : String
  deriving DecidableEq, Repr

/-- The cancel flow of the tracking page (part_011): `handleCancelRide` issues the REST
cancel; on success `navigate` to the home route unmounts `RideTracking`, whose effect
cleanup (lines 34-37) calls `socket.off` on the ride topic and then on the driver topic.
No ride-store action is invoked anywhere on this path; in particular `clearCurrentRide`
has no caller in the repository. On failure the handler only logs. -/
def cancelRideFlow (restOk : Bool) (rideId driverId : String) (s : SessionState) :
    SessionState :=
  if restOk then
    { proc := serviceOff (driverTopic driverId) (serviceOff (rideTopic rideId) s.proc)
      store := s.store
      route := "/" }
  else s

/-- The complete flow of the driver page (`handleCompleteRide`, part_008 lines 39-46):
on success it only navigates to the driver dashboard; the page registers no realtime
subscriptions and never touches the ride store. On failure it only logs. -/
def completeRideFlow (restOk : Bool) (s : SessionState) : SessionState :=
  if restOk then { s with route := "/driver/dashboard" } else s

/-- A session whose store holds the sample ride in Accepted and whose process has one
connection with handlers subscribed to the two topics of the sample ride. -/
def sampleSession : SessionState :=
  { proc := serviceOn (driverTopic "d7") 2
      (serviceOn (rideTopic "42") 1 (connect "tok" freshProcess))
    store := { currentRide := some (sampleRide RideStatus.accepted)
               rideHistory := []
               nearbyDrivers := [] }
    route := "/ride/42" }

/-- A session whose store holds the sample ride in InProgress, tracked on its page with
handlers subscribed to the two topics of the sample ride. -/
def sessionInProgress : SessionState :=
  { proc := serviceOn (driverTopic "d7") 2
      (serviceOn (rideTopic "42") 1 (connect "tok" freshProcess))
    store := storeInProgress
    route := "/ride/42" }

/-- `handleConfirmBooking` (`BookRide`, part_009 lines 35-53), given the outcome of the
`rideService.requestRide` REST call: on success it stores the returned ride via
`setCurrentRide` and navigates to the tracking route of the new ride; on failure it only
logs — no store mutation and no navigation. Returns the store after the handler and the
navigation target, if any. -/
def handleConfirmBooking (result : Except String Ride) (s : RideStoreState) :
    RideStoreState × Option String :=
  match result with
  | .ok ride => (setCurrentRide ride s, some ("/ride/" ++ ride.id))
  | .error _ => (s, none)

/-- State of the zustand location store (`store/locationStore.js`). -/
structure LocationStoreState where
  currentLocation : Option Coordinate
  pickupLocation : Option ResolvedLocation
  dropoffLocation : Option ResolvedLocation
  deriving DecidableEq, Repr

/-- `setCurrentLocation` (locationStore.js line 8): overwrites the single current
location value. -/
def setCurrentLocation (c : Coordinate) (s : LocationStoreState) : LocationStoreState :=
  { s with currentLocation := some c }

/-- The success callback of the geolocation watch (`useGeolocation`, part_006 lines
17-24): stores the latitude and longitude of the reading through `setCurrentLocation`
(the component-local loading and error flags are not part of the store). -/
def geoSuccess (reading : Coordinate) (s : LocationStoreState) : LocationStoreState :=
  setCurrentLocation reading s

/-- A sequence of successful readings delivered to the watcher, processed in order. -/
def processReadings (readings : List Coordinate) (s : LocationStoreState) :
    LocationStoreState :=
  readings.foldl (fun st r => geoSuccess r st) s

/-! ### Helper lemmas -/

/-- Inside one debounce window only the timer of the last call survives: if every call
arrives before the previous pending timer fires, the wrapped function fires exactly once,
for the last call. -/
theorem debounce_last_of_withinWindow (delay : Nat) (l : List (Nat × String)) (t : Nat)
    (q : String) (h : withinWindow delay (l ++ [(t, q)]) = true) :
    debounceFires delay (l ++ [(t, q)]) = [(t + delay, q)] := by
  induction l with
  | nil => rfl
  | cons p l ih =>
    obtain ⟨u, b⟩ := p
    cases l with
    | nil =>
      simp only [List.cons_append, List.nil_append, withinWindow, Bool.and_eq_true,
        decide_eq_true_eq] at h
      simp only [List.cons_append, List.nil_append, debounceFires]
      rw [if_neg (by omega)]
    | cons p2 l2 =>
      obtain ⟨v, c⟩ := p2
      simp only [List.cons_append, withinWindow, Bool.and_eq_true, decide_eq_true_eq] at h
      have ih2 := ih (by simpa using h.2)
      simp only [List.cons_append, debounceFires]
      rw [if_neg (by omega)]
      simpa using ih2

/-- Removing the listeners of a topic leaves no listener matching that topic, whatever
further filtering happens afterwards. -/
theorem filter_beq_of_removed (t : String) (f : String × Nat → Bool)
    (l : List (String × Nat)) :
    (((l.filter (fun q => q.1 != t)).filter f).filter (fun q => q.1 == t)) = [] := by
  induction l with
  | nil => rfl
  | cons q l ih =>
    rw [List.filter_cons]
    by_cases hq : q.1 = t
    · rw [if_neg (by simp [hq])]
      exact ih
    · rw [if_pos (by simp [hq]), List.filter_cons]
      by_cases hf : f q = true
      · rw [if_pos hf, List.filter_cons, if_neg (by simp [hq])]
        exact ih
      · rw [if_neg hf]
        exact ih

/-- Removing the listeners of a topic leaves no listener matching that topic. -/
theorem filter_beq_filter_bne (t : String) (l : List (String × Nat)) :
    (l.filter (fun q => q.1 != t)).filter (fun q => q.1 == t) = [] := by
  induction l with
  | nil => rfl
  | cons q l ih =>
    rw [List.filter_cons]
    by_cases hq : q.1 = t
    · rw [if_neg (by simp [hq])]
      exact ih
    · rw [if_pos (by simp [hq]), List.filter_cons, if_neg (by simp [hq])]
      exact ih

/-! ### Claims -/

/-- C1: the claim fails on the code. `updateRideStatus` (rideStore.js lines 10-15)
performs no ordering check: from a store whose current ride is Completed, applying
Accepted is not rejected — the stored status regresses from Completed to Accepted,
an out-of-order transition that the claim says would be rejected. -/
theorem C1_counterexample :
    (updateRideStatus RideStatus.accepted storeCompleted).currentRide =
      some (sampleRide RideStatus.accepted) ∧
    statusRank RideStatus.accepted < statusRank RideStatus.completed :=
  ⟨rfl, by decide⟩

/-- C1 amended: `updateRideStatus` applies the given status unconditionally — whenever a
current ride exists its status is overwritten with the argument, regardless of the order
Requested < Accepted < InProgress < Completed; no transition is ever rejected. When no
current ride exists the store keeps a null current ride. -/
theorem C1_amended (status : RideStatus) (s : RideStoreState) :
    (updateRideStatus status s).currentRide =
      s.currentRide.map (fun r => { r with status := status }) := by
  cases h : s.currentRide <;> simp [updateRideStatus, h]

/-- C2: the claim fails on the code. Invoked while the stored ride is InProgress,
`handleCancelRide` (part_011 lines 52-59) still runs its full effect trace — the REST
cancel request first, then on REST success the navigation home: the cancellation is
carried out, not rejected as a LifecycleInconsistency (no such error exists in the
repository). The store does keep InProgress, but only because the handler contains no
store action at all. -/
theorem C2_counterexample :
    handleCancelRideEffects "42" true =
      [CancelEffect.restCancelCall "42", CancelEffect.navigateHome] ∧
    (cancelRideFlow true "42" "d7" sessionInProgress).route = "/" ∧
    (cancelRideFlow true "42" "d7" sessionInProgress).store.currentRide =
      some (sampleRide RideStatus.inProgress) :=
  ⟨rfl, rfl, rfl⟩

/-- C2 amended: `handleCancelRide` performs no local lifecycle check and raises no
LifecycleInconsistency: whatever the stored status (including InProgress), its first
effect is always the REST cancel request; it navigates home exactly when the REST call
succeeds; and the cancel flow leaves the ride store unchanged in every case — the stored
status stays InProgress only because the handler never mutates the store. -/
theorem C2_amended (rideId driverId : String) (restOk : Bool) (s : SessionState) :
    (handleCancelRideEffects rideId restOk).head? =
      some (CancelEffect.restCancelCall rideId) ∧
    (CancelEffect.navigateHome ∈ handleCancelRideEffects rideId restOk ↔ restOk = true) ∧
    (cancelRideFlow restOk rideId driverId s).store = s.store := by
  refine ⟨?_, ?_, ?_⟩
  · cases restOk <;> rfl
  · cases restOk <;> simp [handleCancelRideEffects]
  · cases restOk <;> rfl

/-- C3: the claim fails as frozen. `searchLocations` fires on every query change,
including clearing the input: when the last call in the window carries the empty text,
the debounced body short-circuits (part_002 lines 12-15) and ZERO requests reach the
provider within that window — not exactly one request with the text of the last call.
The debounce helper is modelled from the spec, its source not being under src/. -/
theorem C3_counterexample :
    withinWindow 500 [(0, "a"), (100, "")] = true ∧
    providerRequests 500 [(0, "a"), (100, "")] = [] ∧
    ([] : List String) ≠ [""] :=
  ⟨by decide, by decide, by decide⟩

/-- C3 amended: for every sequence of search calls that all fall within one debounce
window (each call arriving before the pending timer of the previous one fires), the
provider receives the requests of the last call only: exactly one request carrying the
text of the last call when that text is nonempty, and zero requests when it is empty
(the empty query short-circuits without contacting the provider). -/
theorem C3_amended (delay : Nat) (calls : List (Nat × String)) (t : Nat) (q : String)
    (hwin : withinWindow delay (calls ++ [(t, q)]) = true) :
    providerRequests delay (calls ++ [(t, q)]) = if q = "" then [] else [q] := by
  unfold providerRequests
  rw [debounce_last_of_withinWindow delay calls t q hwin]
  simp [searchLocationsRequests]

/-- C3 amended witness: the scenario of the spec — search "a", "ab", "abc" at 0 ms,
100 ms, 200 ms with a 500 ms window yields exactly one provider request, with argument
"abc". -/
theorem C3_amended_witness :
    withinWindow 500 ([(0, "a"), (100, "ab")] ++ [(200, "abc")]) = true ∧
    providerRequests 500 ([(0, "a"), (100, "ab")] ++ [(200, "abc")]) =
      (if ("abc" : String) = "" then [] else ["abc"]) :=
  ⟨by decide, C3_amended 500 [(0, "a"), (100, "ab")] 200 "abc" (by decide)⟩

/-- C4: the claim fails on the code. The `getPlacePredictions` callback (part_002 lines
23-28) carries no request sequence number: responses are applied in arrival order, so
when the fast response for "ab" is applied first and the slow response for "a" arrives
afterwards, the stale response overwrites the newer one — the displayed suggestions are
those of "a", not those of "ab" as the claim states. -/
theorem C4_counterexample :
    (applyResponses { suggestions := [], loading := true }
        [fastAbResponse, slowAResponse]).suggestions = slowAResponse.predictions ∧
    slowAResponse.predictions ≠ fastAbResponse.predictions :=
  ⟨rfl, by decide⟩

/-- C4 amended: responses are applied in arrival order with no staleness check — the
last-arriving OK response determines the displayed suggestions, whichever request it
answers; a stale slow response arriving last overwrites a newer fast one. -/
theorem C4_amended (s : PickerState) (rs : List ProviderResponse) (r : ProviderResponse)
    (hok : r.ok = true) :
    (applyResponses s (rs ++ [r])).suggestions = r.predictions := by
  simp [applyResponses, List.foldl_append, applyResponse, hok]

/-- C4 amended witness: a single OK response applied to the initial picker state sets the
suggestions to its predictions. -/
theorem C4_amended_witness :
    fastAbResponse.ok = true ∧
    (applyResponses { suggestions := [], loading := true }
        ([] ++ [fastAbResponse])).suggestions = fastAbResponse.predictions :=
  ⟨rfl, C4_amended { suggestions := [], loading := true } [] fastAbResponse rfl⟩

/-- C5: the claim fails on the code. `SocketService.on` (part_013 lines 39-43) delegates
to the socket.io EventEmitter, which accumulates listeners: subscribing the same handler
twice to "ride_42_update" leaves two active registrations for that topic, not one. -/
theorem C5_counterexample :
    handlersFor "ride_42_update"
        (serviceOn "ride_42_update" 1
          (serviceOn "ride_42_update" 1 (connect "tok" freshProcess))) = [1, 1] ∧
    ([1, 1] : List Nat) ≠ [1] :=
  ⟨rfl, by decide⟩

/-- C5 amended: duplicate subscription accumulates rather than replaces — subscribing h1
and then h2 to the same topic on a connected service leaves both registrations active,
appended in order after whatever was already registered. -/
theorem C5_amended (topic : String) (h1 h2 : Nat) (p : RealtimeProcess) (s : Socket)
    (href : p.socketRef = some s) :
    handlersFor topic (serviceOn topic h2 (serviceOn topic h1 p)) =
      handlersFor topic p ++ [h1, h2] := by
  simp [serviceOn, href, handlersFor, socketOn, List.filter_append]

/-- C5 amended witness: on a freshly connected service, subscribing handler 1 then
handler 2 to "ride_42_update" leaves both registered, in order. -/
theorem C5_amended_witness :
    (connect "tok" freshProcess).socketRef =
      some { connId := 0, token := "tok", listeners := [] } ∧
    handlersFor "ride_42_update"
        (serviceOn "ride_42_update" 2
          (serviceOn "ride_42_update" 1 (connect "tok" freshProcess))) =
      handlersFor "ride_42_update" (connect "tok" freshProcess) ++ [1, 2] :=
  ⟨rfl, C5_amended "ride_42_update" 1 2 (connect "tok" freshProcess) _ rfl⟩

/-- C6: the claim fails on the code. `SocketService.connect` (part_013 lines 8-24)
overwrites `this.socket` with a fresh `io()` connection without disconnecting the prior
one: after connecting twice, two connections are live — the prior connection is not torn
down, so more than one realtime connection is active in the process. -/
theorem C6_counterexample :
    (connect "t2" (connect "t1" freshProcess)).liveConnIds = [0, 1] ∧
    (connect "t2" (connect "t1" freshProcess)).liveConnIds.length ≠ 1 :=
  ⟨rfl, by decide⟩

/-- C6 amended: `connect` opens a new connection and repoints the service reference at
it, but never tears down the prior connection — the set of live connections only grows by
the new one, and the old connection stays live, merely unreferenced (only `disconnect`
tears down, and only the currently referenced connection). -/
theorem C6_amended (token : String) (p : RealtimeProcess) :
    (connect token p).liveConnIds = p.liveConnIds ++ [p.nextConnId] ∧
    (connect token p).socketRef =
      some { connId := p.nextConnId, token := token, listeners := [] } :=
  ⟨rfl, rfl⟩

/-- C7: when the requestRide REST call fails, `handleConfirmBooking` (part_009 lines
35-53) applies no local state mutation — the ride store is exactly what it was before the
call, and no navigation happens. -/
theorem C7_failure_no_mutation (e : String) (s : RideStoreState) :
    (handleConfirmBooking (Except.error e) s).1 = s ∧
    (handleConfirmBooking (Except.error e) s).2 = none :=
  ⟨rfl, rfl⟩

/-- C8: the claim fails on the code. After a successful cancel flow the unmount cleanup
does unsubscribe the ride topics, but `clearCurrentRide` is never called (it has no
caller in the repository): starting from a session whose store holds the sample ride, the
store still holds that ride — not no ride, as the claim states. -/
theorem C8_counterexample :
    (cancelRideFlow true "42" "d7" sampleSession).store.currentRide =
      some (sampleRide RideStatus.accepted) ∧
    (some (sampleRide RideStatus.accepted) ≠ (none : Option Ride)) :=
  ⟨rfl, Option.some_ne_none _⟩

/-- C8 amended: on cancelRide success the tracking page navigates home and its unmount
cleanup removes every handler of the ride topic and of the driver topic, but the ride
store is left unchanged — `clearCurrentRide` is never invoked, so the current ride
persists; completeRide success likewise only navigates and leaves the store untouched. -/
theorem C8_amended (rideId driverId : String) (s : SessionState) :
    handlersFor (rideTopic rideId) (cancelRideFlow true rideId driverId s).proc = [] ∧
    handlersFor (driverTopic driverId) (cancelRideFlow true rideId driverId s).proc = [] ∧
    (cancelRideFlow true rideId driverId s).store = s.store ∧
    (cancelRideFlow true rideId driverId s).route = "/" ∧
    (completeRideFlow true s).store = s.store := by
  refine ⟨?_, ?_, rfl, rfl, rfl⟩
  · cases h : s.proc.socketRef with
    | none => simp [cancelRideFlow, serviceOff, h, handlersFor]
    | some sk =>
      simp [cancelRideFlow, serviceOff, socketOff, h, handlersFor, filter_beq_of_removed]
      tauto
  · cases h : s.proc.socketRef with
    | none => simp [cancelRideFlow, serviceOff, h, handlersFor]
    | some sk =>
      simp [cancelRideFlow, serviceOff, socketOff, h, handlersFor, filter_beq_filter_bne]
      tauto

/-- C9: every successful geolocation reading overwrites the single current location, so
after a sequence of readings ending in a last one is processed, the current location in
the location store is exactly that last reading. -/
theorem C9_last_reading (readings : List Coordinate) (last : Coordinate)
    (s : LocationStoreState) :
    (processReadings (readings ++ [last]) s).currentLocation = some last := by
  simp [processReadings, List.foldl_append, geoSuccess, setCurrentLocation]

/-- C10: `updateRideStatus` modifies at most the status field of the current ride — when
no current ride exists the whole store is unchanged, and otherwise the ride history, the
nearby drivers, and every other field of the current ride (id, pickup, destination, fare,
driver, passenger) keep their previous values. -/
theorem C10_frame (status : RideStatus) (s : RideStoreState) :
    (s.currentRide = none → updateRideStatus status s = s) ∧
    (updateRideStatus status s).rideHistory = s.rideHistory ∧
    (updateRideStatus status s).nearbyDrivers = s.nearbyDrivers ∧
    (updateRideStatus status s).currentRide.map Ride.id = s.currentRide.map Ride.id ∧
    (updateRideStatus status s).currentRide.map Ride.pickupLatitude =
      s.currentRide.map Ride.pickupLatitude ∧
    (updateRideStatus status s).currentRide.map Ride.pickupLongitude =
      s.currentRide.map Ride.pickupLongitude ∧
    (updateRideStatus status s).currentRide.map Ride.pickupAddress =
      s.currentRide.map Ride.pickupAddress ∧
    (updateRideStatus status s).currentRide.map Ride.destinationLatitude =
      s.currentRide.map Ride.destinationLatitude ∧
    (updateRideStatus status s).currentRide.map Ride.destinationLongitude =
      s.currentRide.map Ride.destinationLongitude ∧
    (updateRideStatus status s).currentRide.map Ride.destinationAddress =
      s.currentRide.map Ride.destinationAddress ∧
    (updateRideStatus status s).currentRide.map Ride.fareAmount =
      s.currentRide.map Ride.fareAmount ∧
    (updateRideStatus status s).currentRide.map Ride.driverId =
      s.currentRide.map Ride.driverId ∧
    (updateRideStatus status s).currentRide.map Ride.passengerId =
      s.currentRide.map Ride.passengerId := by
  obtain ⟨cr, hist, nd⟩ := s
  cases cr <;> simp [updateRideStatus]

/-- C10 witness: on the empty store (no current ride), updating the status changes
nothing at all. -/
theorem C10_frame_witness :
    updateRideStatus RideStatus.accepted emptyStore = emptyStore :=
  (C10_frame RideStatus.accepted emptyStore).1 rfl

end CashRide
